import Mathlib

/-!
Shallow embedding of the bingo game engine (`GameEngine` in the source) and
of the data rows it manipulates, together with proofs about the round
lifecycle, card generation, win detection and settlement.

Conventions of the embedding:
* JavaScript numbers used as money (balances, pot, bet, fee) are modelled as
  exact rationals `ℚ`; the persisted columns are `DECIMAL(15,2)` and every
  amount the engine computes here is exact at that precision.
* Database ids (UUID strings) are modelled as `ℕ` keys.
* A JavaScript float that may be NaN is modelled as `Option ℚ` with `none`
  for NaN; a possibly-`undefined` array slot is `Option ℕ`.
* The engine methods wrap their bodies in `try { ... } catch`, so a thrown
  error does not roll back the mutations already applied; each method below
  is modelled up to the first throwing statement, with the catch behaviour
  (swallow or rethrow) of the source.
* The module under scrutiny imports only `{ Game, Card, User }` from
  `../models`; the name `Transaction` is never bound there, so every
  `Transaction.create(...)` statement throws a `ReferenceError` at the point
  of the call.  Likewise `sequelize` is unbound in that module, so
  `markNumberOnCards` always throws internally (and swallows the error in
  its own catch, leaving the state untouched).
-/

/-- One cell of a 5×5 bingo card grid, as built by `generateCardNumbers`:
`{ letter, number, called, row, col }`, with the `free` property added only
at the centre cell (an absent property reads as `false`).  The `number`
is an `Option` because the degenerate seeded shuffle can leave array slots
`undefined`. -/
structure Cell where
  letter : String
  number : Option Nat
  called : Bool
  row : Nat
  col : Nat
  free : Bool
deriving Repr, DecidableEq

/-- One draw of the 75-value universe built by `callNumbers`:
`{ letter, number, called }`. -/
structure Draw where
  letter : String
  number : Nat
  called : Bool
deriving Repr, DecidableEq

/-- Key string `${letter}${number}` of a draw, as used by the win detector. -/
def drawKey (d : Draw) : String := d.letter ++ toString d.number

/-- Key string `${cell.letter}${cell.number}` of a cell; a JS template
stringifies an `undefined` number as `"undefined"`. -/
def cellKey (c : Cell) : String :=
  c.letter ++ (match c.number with | some n => toString n | none => "undefined")

/-- Default cell used for out-of-range grid indexing. -/
def defaultCell : Cell :=
  { letter := "", number := none, called := false, row := 0, col := 0, free := false }

/-- Default draw used for out-of-range list indexing. -/
def defaultDraw : Draw := { letter := "", number := 0, called := false }

/-- Cell of a grid at (row, col), i.e. `cardNumbers[row][col]`. -/
def cellAt (g : List (List Cell)) (r c : Nat) : Cell := (g.getD r []).getD c defaultCell

/-- The five letter columns with their number ranges, from
`generateCardNumbers`. -/
def ranges : List (String × Nat × Nat) :=
  [("B", 1, 15), ("I", 16, 30), ("N", 31, 45), ("G", 46, 60), ("O", 61, 75)]

/-- The seeded pseudo-random value `seededRandom(index)` of
`generateCardNumbers`.  The source computes
`x = Math.sin(seed + index) * 10000; return x - Math.floor(x)` with
`seed = cardNumber + gameId`.  `gameId` is the round's UUID string, so the
`+` is string concatenation and `seed + index` is again a non-numeric
string; `Math.sin` coerces it with `Number(...)`, giving NaN, and every
subsequent arithmetic step stays NaN.  We model a JS float as `Option ℚ`
with `none` for NaN; on the engine's domain (non-numeric ids) this function
is the constant NaN. -/
def seededRandom (cardNumber : Nat) (gameId : String) (index : Nat) : Option ℚ :=
  none

/-- JS multiplication of a possibly-NaN float by a plain number. -/
def jsMulNat (x : Option ℚ) (n : Nat) : Option ℚ := x.map (fun q => q * n)

/-- `Math.floor` on a possibly-NaN float (`Math.floor(NaN)` is NaN). -/
def jsFloor (x : Option ℚ) : Option ℤ := x.map Rat.floor

/-- One step `[arr[i], arr[j]] = [arr[j], arr[i]]` of the card shuffle.
`j : Option ℤ` is the computed index; when it is NaN the subscript
`arr[NaN]` reads and writes the array's `"NaN"` property, modelled by the
extra slot `nanSlot` (initially `undefined`, i.e. `none`). -/
def swapStep (arr : List (Option Nat)) (nanSlot : Option Nat) (i : Nat) (j : Option ℤ) :
    List (Option Nat) × Option Nat :=
  match j with
  | none => (arr.set i nanSlot, arr.getD i none)
  | some jv =>
      let jn := jv.toNat
      ((arr.set i (arr.getD jn none)).set jn (arr.getD i none), nanSlot)

/-- The loop `for (let i = columnNumbers.length - 1; i > 0; i--)` of
`generateCardNumbers`, with `j = Math.floor(seededRandom(colIndex*100+i) * (i+1))`. -/
def shuffleLoop (cardNumber : Nat) (gameId : String) (colIndex : Nat) :
    Nat → List (Option Nat) × Option Nat → List (Option Nat) × Option Nat
  | 0, st => st
  | i+1, (arr, nanSlot) =>
      let j := jsFloor (jsMulNat (seededRandom cardNumber gameId (colIndex * 100 + (i+1))) (i+2))
      shuffleLoop cardNumber gameId colIndex i (swapStep arr nanSlot (i+1) j)

/-- Column construction of `generateCardNumbers`: enumerate the letter's
range, shuffle it with the seeded loop, take the first five slots. -/
def generateColumn (cardNumber : Nat) (gameId : String) (colIndex lo hi : Nat) :
    List (Option Nat) :=
  let init := (List.range (hi + 1 - lo)).map (fun k => some (lo + k))
  (shuffleLoop cardNumber gameId colIndex (init.length - 1) (init, none)).1.take 5

/-- The final statements `numbers[2][2].called = true; numbers[2][2].free = true`
of `generateCardNumbers`. -/
def setCenterFree (g : List (List Cell)) : List (List Cell) :=
  g.set 2 ((g.getD 2 []).set 2
    (let cell := (g.getD 2 []).getD 2 defaultCell
     { cell with called := true, free := true }))

/-- `GameEngine.generateCardNumbers(cardNumber, gameId)`: build the five
columns from the seeded shuffle, distribute `selectedNumbers[rowIndex]`
into `numbers[rowIndex][colIndex]`, and mark the centre cell free. -/
def generateCardNumbers (cardNumber : Nat) (gameId : String) : List (List Cell) :=
  let selected := ranges.enum.map (fun (colIndex, letter, lo, hi) =>
    (letter, colIndex, generateColumn cardNumber gameId colIndex lo hi))
  let numbers := (List.range 5).map (fun rowIndex =>
    selected.map (fun (letter, colIndex, sel) =>
      { letter := letter, number := sel.getD rowIndex none, called := false,
        row := rowIndex, col := colIndex, free := false : Cell }))
  setCenterFree numbers

/-- `GameEngine.checkCardForBingo(cardNumbers, calledNumbers)`: build the
called-key set, then scan the five rows, the five columns and the two
diagonals; a line is complete when every cell is free or has its key in the
called set. -/
def checkCardForBingo (cardNumbers : List (List Cell)) (calledNumbers : List Draw) : Bool :=
  let calledSet := calledNumbers.map drawKey
  let ok := fun (cell : Cell) => cell.free || calledSet.contains (cellKey cell)
  ((List.range 5).any fun row => (List.range 5).all fun col => ok (cellAt cardNumbers row col))
  || ((List.range 5).any fun col => (List.range 5).all fun row => ok (cellAt cardNumbers row col))
  || ((List.range 5).all fun i => ok (cellAt cardNumbers i i))
  || ((List.range 5).all fun i => ok (cellAt cardNumbers i (4 - i)))

/-- Specification-side reading of the win predicate: some row, some column
or one of the two diagonals has every cell matched-or-free, where a cell is
matched when its letter+number key is in the called set. -/
def bingoSpec (cardNumbers : List (List Cell)) (calledNumbers : List Draw) : Prop :=
  let matched := fun (cell : Cell) =>
    cell.free = true ∨ cellKey cell ∈ calledNumbers.map drawKey
  (∃ r < 5, ∀ c < 5, matched (cellAt cardNumbers r c)) ∨
  (∃ c < 5, ∀ r < 5, matched (cellAt cardNumbers r c)) ∨
  (∀ i < 5, matched (cellAt cardNumbers i i)) ∨
  (∀ i < 5, matched (cellAt cardNumbers i (4 - i)))

/-- Round status values used by the engine: `waiting` (the spec's
Scheduled), `active`, `completed`, `cancelled`. -/
inductive GameStatus
  | waiting
  | active
  | completed
  | cancelled
deriving Repr, DecidableEq

/-- Per-round settings object written by `createNewGame`. -/
structure GameSettings where
  bet_amount : ℚ
  house_fee : ℚ
  game_duration : Nat
  max_cards_per_player : Nat
  min_players : Nat
deriving Repr, DecidableEq

/-- Modelled from the spec: the persisted Game row (the `Game` sequelize
model is not among the provided sources; fields follow §3 of the spec and
the engine's uses).  `end_time` abstracts the wall-clock timestamp to a
flag recording whether it has been written; `called_numbers` defaults to
the empty sequence. -/
structure Game where
  id : Nat
  status : GameStatus
  pot : ℚ
  settings : GameSettings
  called_numbers : List Draw
  current_calls : List Draw
  winner_id : Option Nat
  winning_card : Option Nat
  end_time : Bool
deriving Repr, DecidableEq

/-- The persisted Card row (model `Card` of the sources): owner `user_id`
is null until purchased; `(game_id, card_number)` carries a unique index. -/
structure CardRec where
  game_id : Nat
  card_number : Nat
  numbers : List (List Cell)
  user_id : Option Nat
  is_winner : Bool
  purchased_at : Bool
deriving Repr, DecidableEq

/-- The persisted User row (model `User` of the sources), restricted to the
fields the engine touches. -/
structure UserRec where
  id : Nat
  balance : ℚ
  total_won : ℚ
  games_played : Nat
  games_won : Nat
deriving Repr, DecidableEq

/-- Transaction kinds emitted by the engine. -/
inductive TxType
  | bet
  | win
  | refund
deriving Repr, DecidableEq

/-- Modelled from the spec: a ledger Transaction row (§3; the `Transaction`
sequelize model is not among the provided sources).  No engine method ever
succeeds in creating one, because the engine module never imports the
`Transaction` binding. -/
structure Txn where
  user_id : Nat
  kind : TxType
  amount : ℚ
  game_id : Nat
  card_number : Option Nat
deriving Repr, DecidableEq

/-- Errors thrown by the engine methods: explicit `new Error(msg)` throws,
the `ReferenceError` raised by evaluating an unbound name, and the
`TypeError` raised by reading a property of `null`. -/
inductive JsError
  | errorMsg (msg : String)
  | referenceError (name : String)
  | typeError
deriving Repr, DecidableEq

/-- The engine's full observable state: the persisted tables (`games`,
`cards`, `users`, `transactions`) plus the in-process partitions
`waitingGames` and `activeGames` (JS `Map`s from round id to the in-memory
game object).  `scheduledNewGames` counts the replacement-round requests
(`createNewGame()` calls and timers) the engine has issued. -/
structure EngineState where
  games : List Game
  cards : List CardRec
  users : List UserRec
  transactions : List Txn
  waitingGames : List (Nat × Game)
  activeGames : List (Nat × Game)
  scheduledNewGames : Nat
deriving Repr, DecidableEq

/-- `Map.get` on an in-memory partition. -/
def lookupMem (m : List (Nat × Game)) (gid : Nat) : Option Game :=
  (m.find? (fun p => p.1 == gid)).map (fun p => p.2)

/-- `Map.set` on an in-memory partition: replace the entry if the key is
present, append it otherwise. -/
def setMem (m : List (Nat × Game)) (gid : Nat) (g : Game) : List (Nat × Game) :=
  if m.any (fun p => p.1 == gid) then m.map (fun p => if p.1 == gid then (gid, g) else p)
  else m ++ [(gid, g)]

/-- `Map.delete` on an in-memory partition. -/
def delMem (m : List (Nat × Game)) (gid : Nat) : List (Nat × Game) :=
  m.filter (fun p => p.1 != gid)

/-- `Game.findByPk` / row lookup on the games table. -/
def findGameRow (l : List Game) (gid : Nat) : Option Game :=
  l.find? (fun g => g.id == gid)

/-- `Game.update(patch, { where: { id: gid } })` on the games table. -/
def updateGameRow (l : List Game) (gid : Nat) (f : Game → Game) : List Game :=
  l.map (fun g => if g.id == gid then f g else g)

/-- `User.findByPk`. -/
def findUserRow (l : List UserRec) (uid : Nat) : Option UserRec :=
  l.find? (fun u => u.id == uid)

/-- `User.increment`/`User.decrement` with `where: { id: uid }`. -/
def updateUserRow (l : List UserRec) (uid : Nat) (f : UserRec → UserRec) : List UserRec :=
  l.map (fun u => if u.id == uid then f u else u)

/-- Unique key `(game_id, card_number)` of a card row. -/
def cardKey (c : CardRec) : Nat × Nat := (c.game_id, c.card_number)

/-- `Card.count({ where: { game_id, user_id: { $not: null } } })`: number of
purchased cards of a round. -/
def purchasedCount (s : EngineState) (gid : Nat) : Nat :=
  s.cards.countP (fun c => c.game_id == gid && c.user_id.isSome)

/-- `Card.findAll({ where: { game_id, user_id: { $not: null } } })` in the
table's stored order.  The query carries no `order` clause, so the engine
has no control over the order the rows actually come back in; theorems
about the win sweep therefore take the retrieved list as an explicit
argument constrained to be a permutation of this set. -/
def findPurchased (s : EngineState) (gid : Nat) : List CardRec :=
  s.cards.filter (fun c => c.game_id == gid && c.user_id.isSome)

/-- `Card.count({ where: { game_id, user_id } })`: cards of a round held by
one participant. -/
def userCardCount (s : EngineState) (gid uid : Nat) : Nat :=
  (s.cards.filter (fun c => c.game_id == gid && c.user_id == some uid)).length

/-- `GameEngine.generateGameCards(gameId)`: build the 400 card rows of a
round (card numbers 1..400, owner null).  The id passed to the generator is
the round's UUID string, modelled by the decimal string of the `ℕ` key. -/
def generateGameCards (gid : Nat) : List CardRec :=
  (List.range 400).map (fun k =>
    { game_id := gid, card_number := k + 1,
      numbers := generateCardNumbers (k + 1) (toString gid),
      user_id := none, is_winner := false, purchased_at := false })

/-- `GameEngine.createNewGame()`: create the round row (status waiting, pot
0, settings from the environment with `min_players` hard-coded to 1), bulk
create its 400 cards, register it in the waiting partition and start the
countdown.  The fresh id and the environment-derived settings are
parameters. -/
def createNewGame (s : EngineState) (gid : Nat) (betAmount houseFee : ℚ)
    (gameDuration maxCards : Nat) : EngineState :=
  let settings : GameSettings :=
    { bet_amount := betAmount, house_fee := houseFee, game_duration := gameDuration,
      max_cards_per_player := maxCards, min_players := 1 }
  let game : Game :=
    { id := gid, status := .waiting, pot := 0, settings := settings,
      called_numbers := [], current_calls := [], winner_id := none,
      winning_card := none, end_time := false }
  let s1 := { s with games := s.games ++ [game] }
  let s2 := { s1 with cards := s1.cards ++ generateGameCards gid }
  { s2 with waitingGames := setMem s2.waitingGames gid game }

/-- `GameEngine.joinGame(gameId, userId)`: read-only validation; fails when
the round is not a waiting one or the participant already holds
`max_cards_per_player` cards. -/
def joinGame (s : EngineState) (gid uid : Nat) : Except JsError Game :=
  match lookupMem s.waitingGames gid with
  | none => .error (.errorMsg "Game not available for joining")
  | some game =>
    if game.status ≠ .waiting then .error (.errorMsg "Game not available for joining")
    else if userCardCount s gid uid ≥ game.settings.max_cards_per_player then
      .error (.errorMsg "Maximum cards per player reached")
    else .ok game

/-- `GameEngine.purchaseCard(gameId, userId, cardNumber)`.  The three
explicit validation failures (round not waiting, card unavailable,
insufficient balance) throw before any mutation.  Past them, the method
debits the balance, assigns the card, raises the pot (in memory and in the
row) — and then evaluates `Transaction.create`, an unbound name, raising a
`ReferenceError` that the catch logs and rethrows: the mutations stand, the
caller sees the error, and the games-played increment and purchase event
after that point never run. -/
def purchaseCard (s : EngineState) (gameId userId cardNumber : Nat) :
    EngineState × Except JsError CardRec :=
  match lookupMem s.waitingGames gameId with
  | none => (s, .error (.errorMsg "Game not available for card purchase"))
  | some game =>
    if game.status ≠ .waiting then
      (s, .error (.errorMsg "Game not available for card purchase"))
    else
      match s.cards.find? (fun c =>
          c.game_id == gameId && c.card_number == cardNumber && c.user_id == none) with
      | none => (s, .error (.errorMsg "Card not available"))
      | some card =>
        match findUserRow s.users userId with
        | none => (s, .error .typeError)
        | some user =>
          if user.balance < game.settings.bet_amount then
            (s, .error (.errorMsg "Insufficient balance"))
          else
            let s1 := { s with users := updateUserRow s.users userId (fun u =>
              { u with balance := u.balance - game.settings.bet_amount }) }
            let card1 := { card with user_id := some userId, purchased_at := true }
            let s2 := { s1 with cards := s1.cards.map (fun c =>
              if cardKey c == (gameId, cardNumber) then card1 else c) }
            let game1 := { game with pot := game.pot + game.settings.bet_amount }
            let s3 := { s2 with games := updateGameRow s2.games gameId (fun g =>
              { g with pot := game1.pot }) }
            let s4 := { s3 with waitingGames := setMem s3.waitingGames gameId game1 }
            (s4, .error (.referenceError "Transaction"))

/-- `GameEngine.cancelGame(gameId)`: persist Cancelled, then refund every
purchaser.  With no purchased card the loop is empty and the method removes
the round from the waiting partition and requests a replacement round.
With purchasers, the first iteration credits that purchaser's balance and
then evaluates the unbound name `Transaction`; the ReferenceError is caught
by the method's catch, so no Refund transaction is recorded, later
purchasers are not credited, and the partition removal, timer cleanup and
replacement round are skipped. -/
def cancelGame (s : EngineState) (gameId : Nat) : EngineState :=
  match lookupMem s.waitingGames gameId with
  | none => s
  | some game =>
    -- the Game.update to Cancelled precedes the purchased-cards query in the
    -- source; it touches only the games table, so the query reads the same
    -- card rows either way
    match findPurchased s gameId with
    | [] =>
      let s1 := { s with games := updateGameRow s.games gameId (fun g =>
        { g with status := .cancelled, end_time := true }) }
      let s2 := { s1 with waitingGames := delMem s1.waitingGames gameId }
      { s2 with scheduledNewGames := s2.scheduledNewGames + 1 }
    | card :: _ =>
      let s1 := { s with games := updateGameRow s.games gameId (fun g =>
        { g with status := .cancelled, end_time := true }) }
      { s1 with users := updateUserRow s1.users (card.user_id.getD 0) (fun u =>
          { u with balance := u.balance + game.settings.bet_amount }) }

/-- `GameEngine.startGame(gameId)` at countdown expiry: count the purchased
cards; fewer than the hard-coded `1` (not the round's `min_players`
setting) cancels the round, otherwise persist Active and move the round
from the waiting to the active partition (the number caller then starts;
its ticks are modelled by `callNumbersTick`). -/
def startGame (s : EngineState) (gameId : Nat) : EngineState :=
  match lookupMem s.waitingGames gameId with
  | none => s
  | some game =>
    if purchasedCount s gameId < 1 then cancelGame s gameId
    else
      let s1 := { s with games := updateGameRow s.games gameId (fun g =>
        { g with status := .active }) }
      let game1 := { game with status := .active }
      { s1 with waitingGames := delMem s1.waitingGames gameId,
                activeGames := setMem s1.activeGames gameId game1 }

/-- `GameEngine.endGame(gameId)` (exhaustion, no winner): persist Completed
with an end time, remove the round from the active partition, emit the
ended event and schedule a replacement round. -/
def endGame (s : EngineState) (gameId : Nat) : EngineState :=
  match lookupMem s.activeGames gameId with
  | none => s
  | some _ =>
    let s1 := { s with games := updateGameRow s.games gameId (fun g =>
      { g with status := .completed, end_time := true }) }
    let s2 := { s1 with activeGames := delMem s1.activeGames gameId }
    { s2 with scheduledNewGames := s2.scheduledNewGames + 1 }

/-- `GameEngine.declareWinner(gameId, userId, cardNumber)`: guard on the
in-memory round and its `winner_id`; compute
`winnings = pot * (1 - house_fee)`; persist Completed with the winner
fields; credit the winner's balance and counters; flag the winning card.
The next statement is `Transaction.create(...)` on the unbound name
`Transaction`: the ReferenceError is caught by the method's catch, so no
Win transaction is recorded and the statements after it — the in-memory
status/winner updates, the removal from the active partition, the winner
event and the delayed replacement round — never run. -/
def declareWinner (s : EngineState) (gameId userId cardNumber : Nat) : EngineState :=
  match lookupMem s.activeGames gameId with
  | none => s
  | some game =>
    if game.winner_id.isSome then s
    else
      let winnings := game.pot * (1 - game.settings.house_fee)
      let s1 := { s with games := updateGameRow s.games gameId (fun g =>
        { g with status := .completed, winner_id := some userId,
                 winning_card := some cardNumber, end_time := true }) }
      let s2 := { s1 with users := updateUserRow s1.users userId (fun u =>
        { u with balance := u.balance + winnings }) }
      let s3 := { s2 with users := updateUserRow s2.users userId (fun u =>
        { u with total_won := u.total_won + winnings }) }
      let s4 := { s3 with users := updateUserRow s3.users userId (fun u =>
        { u with games_won := u.games_won + 1 }) }
      { s4 with cards := s4.cards.map (fun c =>
        if cardKey c == (gameId, cardNumber) then { c with is_winner := true } else c) }

/-- `GameEngine.checkForWinners(gameId)`: over the retrieved purchased-card
rows (`retrieved` — the unordered `findAll` result), declare the first card
satisfying the win predicate against the in-memory round's called numbers.
The query restricts to rows with a non-null owner, hence the `getD 0` on
the owner id is never the default on real retrievals. -/
def checkForWinners (s : EngineState) (gameId : Nat) (retrieved : List CardRec) :
    EngineState :=
  match lookupMem s.activeGames gameId with
  | none => s
  | some game =>
    match retrieved.find? (fun card => checkCardForBingo card.numbers game.called_numbers) with
    | none => s
    | some card => declareWinner s gameId (card.user_id.getD 0) card.card_number

/-- `array.slice(-3)` on the called numbers. -/
def sliceLast (l : List Draw) (n : Nat) : List Draw := l.drop (l.length - n)

/-- The statement `number.called = true` of the caller tick. -/
def markCalled (d : Draw) : Draw := { d with called := true }

/-- One tick of the `setInterval` callback in `GameEngine.callNumbers`.
`allNumbers` is the shuffled 75-draw universe built at round start (the
shuffle uses `Math.random`, so the list is a parameter), `numberIndex` the
position of the next draw, `elapsedMs` the time since the interval was
started, and `retrieved` the card rows the win sweep's query returns.  The
tick stops when the round has left the active partition; it stops and ends
the round when the duration is exceeded or the draws are exhausted;
otherwise it pops the next draw, marks it called, appends it to the round's
called numbers (in memory and in the row), and runs the win sweep.
(`markNumberOnCards` evaluates the unbound name `sequelize` and catches its
own ReferenceError, leaving every row unchanged.) -/
def callNumbersTick (s : EngineState) (gameId : Nat) (allNumbers : List Draw)
    (numberIndex elapsedMs : Nat) (retrieved : List CardRec) : EngineState × Nat :=
  match lookupMem s.activeGames gameId with
  | none => (s, numberIndex)
  | some game =>
    if elapsedMs > game.settings.game_duration * 1000 ∨ numberIndex ≥ allNumbers.length then
      (endGame s gameId, numberIndex)
    else
      let number := markCalled (allNumbers.getD numberIndex defaultDraw)
      let game1 := { game with called_numbers := game.called_numbers ++ [number] }
      let game2 := { game1 with current_calls := sliceLast game1.called_numbers 3 }
      let s1 := { s with
        activeGames := setMem s.activeGames gameId game2,
        games := updateGameRow s.games gameId (fun g =>
          { g with called_numbers := game2.called_numbers,
                   current_calls := game2.current_calls }) }
      (checkForWinners s1 gameId retrieved, numberIndex + 1)

/-- The pot invariant of the spec: every games-table row of the round has
`pot = bet_amount × purchased_card_count`. -/
def potInvariant (s : EngineState) (gid : Nat) : Prop :=
  ∀ g ∈ s.games, g.id = gid → g.pot = g.settings.bet_amount * (purchasedCount s gid : ℚ)

/-- Consistency of the in-memory waiting copies with the persisted rows
(pot and bet amount), maintained by the engine's lockstep updates. -/
def memDbPotAgree (s : EngineState) : Prop :=
  ∀ p ∈ s.waitingGames, ∀ g ∈ s.games, g.id = p.1 →
    g.pot = p.2.pot ∧ g.settings.bet_amount = p.2.settings.bet_amount

/-- Uniqueness of the `(game_id, card_number)` keys, the cards table's
unique index. -/
def cardKeysNodup (s : EngineState) : Prop := (s.cards.map cardKey).Nodup

/-- The grid layout every generated card carries (the seeded shuffle is the
constant NaN trace, so the layout depends on neither the card number nor
the round id). -/
def exGrid : List (List Cell) := generateCardNumbers 1 "g"

/-- Draws covering exactly row 0 of `exGrid` (B1 I16 N31 G46 O61). -/
def calledRow0 : List Draw :=
  [{ letter := "B", number := 1, called := true },
   { letter := "I", number := 16, called := true },
   { letter := "N", number := 31, called := true },
   { letter := "G", number := 46, called := true },
   { letter := "O", number := 61, called := true }]

/-- Draws covering exactly the non-free cells of the main diagonal of
`exGrid` (B1 I18 G50 O66; the centre is free). -/
def calledDiag : List Draw :=
  [{ letter := "B", number := 1, called := true },
   { letter := "I", number := 18, called := true },
   { letter := "G", number := 50, called := true },
   { letter := "O", number := 66, called := true }]

/-- Settings produced by `createNewGame` under the default environment:
bet 10, house fee 0.05, duration 180 s, five cards per player. -/
def exSettings : GameSettings :=
  { bet_amount := 10, house_fee := 1/20, game_duration := 180,
    max_cards_per_player := 5, min_players := 1 }

/-- A user row constructor for the example states. -/
def mkUser (uid : Nat) (bal : ℚ) (played : Nat) : UserRec :=
  { id := uid, balance := bal, total_won := 0, games_played := played, games_won := 0 }

/-- A card row of round 1 for the example states. -/
def mkCard (n : Nat) (owner : Option Nat) : CardRec :=
  { game_id := 1, card_number := n, numbers := exGrid, user_id := owner,
    is_winner := false, purchased_at := owner.isSome }

/-- Active round for the winner scenario of the spec: pot 100, house fee
0.05, row 0 already called, no winner yet. -/
def gameC1 : Game :=
  { id := 1, status := .active, pot := 100, settings := exSettings,
    called_numbers := calledRow0, current_calls := [], winner_id := none,
    winning_card := none, end_time := false }

/-- State for the winner scenario: round 1 active, its winner-to-be holds
card 7 and a balance of 50. -/
def stateC1 : EngineState :=
  { games := [gameC1], cards := [mkCard 7 (some 1)], users := [mkUser 1 50 3],
    transactions := [], waitingGames := [], activeGames := [(1, gameC1)],
    scheduledNewGames := 0 }

/-- Active round with no pot, row 0 called, used for the win-sweep order
scenarios. -/
def gameC3 : Game :=
  { id := 1, status := .active, pot := 0, settings := exSettings,
    called_numbers := calledRow0, current_calls := [], winner_id := none,
    winning_card := none, end_time := false }

/-- Card 3 of round 1, owned by user 1. -/
def cardC3a : CardRec := mkCard 3 (some 1)

/-- Card 7 of round 1, owned by user 2. -/
def cardC3b : CardRec := mkCard 7 (some 2)

/-- State for the win-sweep order scenarios: two purchased cards (numbers 3
and 7, identical grids) that both satisfy the win predicate on the called
row. -/
def stateC3 : EngineState :=
  { games := [gameC3], cards := [cardC3a, cardC3b],
    users := [mkUser 1 0 1, mkUser 2 0 1], transactions := [],
    waitingGames := [], activeGames := [(1, gameC3)], scheduledNewGames := 0 }

/-- Waiting round (pot 0, bet 10) for the purchase scenarios. -/
def gameC4 : Game :=
  { id := 1, status := .waiting, pot := 0, settings := exSettings,
    called_numbers := [], current_calls := [], winner_id := none,
    winning_card := none, end_time := false }

/-- State for the purchase scenarios: cards 3 and 9 unsold, cards 10–14
held by user 2 (who is at the five-card cap), user 1 with balance 50,
user 3 with balance 5 (below the bet). -/
def stateC4 : EngineState :=
  { games := [gameC4],
    cards := [mkCard 3 none, mkCard 9 none, mkCard 10 (some 2), mkCard 11 (some 2),
              mkCard 12 (some 2), mkCard 13 (some 2), mkCard 14 (some 2)],
    users := [mkUser 1 50 0, mkUser 2 50 5, mkUser 3 5 0], transactions := [],
    waitingGames := [(1, gameC4)], activeGames := [], scheduledNewGames := 0 }

/-- State for the cancellation scenario with no purchased card. -/
def stateC7a : EngineState :=
  { games := [gameC4], cards := [mkCard 3 none], users := [mkUser 1 20 0],
    transactions := [], waitingGames := [(1, gameC4)], activeGames := [],
    scheduledNewGames := 0 }

/-- State for the cancellation scenario with two purchasers (users 1 and 2,
balances 0). -/
def stateC7b : EngineState :=
  { games := [gameC4], cards := [mkCard 3 (some 1), mkCard 7 (some 2)],
    users := [mkUser 1 0 1, mkUser 2 0 1], transactions := [],
    waitingGames := [(1, gameC4)], activeGames := [], scheduledNewGames := 0 }

/-- Waiting round whose settings demand three participants. -/
def gameC7c : Game :=
  { gameC4 with settings := { exSettings with min_players := 3 } }

/-- State with two purchasers but `min_players = 3` at countdown expiry. -/
def stateC7c : EngineState :=
  { games := [gameC7c], cards := [mkCard 3 (some 1), mkCard 7 (some 2)],
    users := [mkUser 1 0 1, mkUser 2 0 1], transactions := [],
    waitingGames := [(1, gameC7c)], activeGames := [], scheduledNewGames := 0 }

/-- Active round with nothing called yet, for the caller-tick and
end-of-round scenarios. -/
def gameC8 : Game :=
  { id := 1, status := .active, pot := 20, settings := exSettings,
    called_numbers := [], current_calls := [], winner_id := none,
    winning_card := none, end_time := false }

/-- State for the caller-tick scenarios. -/
def stateC8 : EngineState :=
  { games := [gameC8], cards := [mkCard 3 (some 1)], users := [mkUser 1 0 1],
    transactions := [], waitingGames := [], activeGames := [(1, gameC8)],
    scheduledNewGames := 0 }

/-- A two-draw universe for the caller-tick witness. -/
def drawsC8 : List Draw :=
  [{ letter := "B", number := 1, called := false },
   { letter := "B", number := 2, called := false }]

/-- State for the pot-invariant witness: waiting round 1 with pot 0, one
unsold card, one participant with balance 50. -/
def stateC6 : EngineState :=
  { games := [gameC4], cards := [mkCard 3 none], users := [mkUser 1 50 0],
    transactions := [], waitingGames := [(1, gameC4)], activeGames := [],
    scheduledNewGames := 0 }

/-- Claim C2: for every 5×5 grid and every called-draw list, the win
predicate returns true iff some row, some column, or one of the two
diagonals has every cell free-or-matched; concretely on the generated grid,
calling exactly row 0 yields true, calling nothing yields false, and
calling exactly the non-free diagonal cells yields true. -/
theorem checkCardForBingo_correct :
    (∀ (grid : List (List Cell)) (called : List Draw),
        checkCardForBingo grid called = true ↔ bingoSpec grid called) ∧
    checkCardForBingo exGrid calledRow0 = true ∧
    checkCardForBingo exGrid [] = false ∧
    checkCardForBingo exGrid calledDiag = true := by
  refine ⟨fun grid called => ?_, by decide, by decide, by decide⟩
  simp only [checkCardForBingo, bingoSpec, List.any_eq_true, List.all_eq_true,
    List.mem_range, List.elem_iff, Bool.or_eq_true, List.mem_map]
  simp only [or_assoc]

/-- Claim C5: card generation is deterministic in (cardNumber, gameId), and
the produced grid has exactly one free cell, located at the centre; every
cell of column `c` carries the column's letter and a number of the
letter's 15-value range, and no number is duplicated anywhere in the card. -/
theorem generateCardNumbers_grid_properties :
    ∀ (cardNumber : Nat) (gameId : String),
      (∀ (c2 : Nat) (g2 : String), c2 = cardNumber → g2 = gameId →
        generateCardNumbers c2 g2 = generateCardNumbers cardNumber gameId) ∧
      (generateCardNumbers cardNumber gameId).flatten.countP (fun cell => cell.free) = 1 ∧
      (cellAt (generateCardNumbers cardNumber gameId) 2 2).free = true ∧
      (∀ r < 5, ∀ c < 5,
        (cellAt (generateCardNumbers cardNumber gameId) r c).letter
            = (ranges.getD c ("", 0, 0)).1 ∧
        (cellAt (generateCardNumbers cardNumber gameId) r c).number.isSome = true ∧
        (ranges.getD c ("", 0, 0)).2.1
            ≤ (cellAt (generateCardNumbers cardNumber gameId) r c).number.getD 0 ∧
        (cellAt (generateCardNumbers cardNumber gameId) r c).number.getD 0
            ≤ (ranges.getD c ("", 0, 0)).2.2) ∧
      ((generateCardNumbers cardNumber gameId).flatten.map (fun cell => cell.number)).Nodup := by
  intro cn g
  have h : generateCardNumbers cn g = generateCardNumbers 1 "g" := rfl
  refine ⟨fun c2 g2 h2 h3 => by rw [h2, h3], ?_, ?_, ?_, ?_⟩ <;> rw [h] <;> decide

/-- Witness for C5 at cardNumber 1, gameId "g". -/
theorem generateCardNumbers_grid_properties_witness :
    generateCardNumbers 1 "g" = generateCardNumbers 1 "g" ∧
    (generateCardNumbers 1 "g").flatten.countP (fun cell => cell.free) = 1 ∧
    (cellAt (generateCardNumbers 1 "g") 0 0).letter = (ranges.getD 0 ("", 0, 0)).1 :=
  ⟨(generateCardNumbers_grid_properties 1 "g").1 1 "g" rfl rfl,
   (generateCardNumbers_grid_properties 1 "g").2.1,
   ((generateCardNumbers_grid_properties 1 "g").2.2.2.1 0 (by decide) 0 (by decide)).1⟩

/-- Claim C10: the generated grid depends on neither the card number nor
the round id — for the non-numeric (UUID-style) ids the engine passes, the
seeded shuffle's random values are all NaN — so all 400 cards of a round
share one identical layout. -/
theorem generateCardNumbers_ignores_inputs :
    ∀ (c1 c2 : Nat) (gameId : String),
      generateCardNumbers c1 gameId = generateCardNumbers c2 gameId ∧
      ∀ (g2 : String), generateCardNumbers c1 gameId = generateCardNumbers c1 g2 :=
  fun _ _ _ => ⟨rfl, fun _ => rfl⟩

/-- Claim C1 (code bug): `declareWinner` on an active round with pot 100,
house fee 0.05 and winner balance 50 does credit the balance to
50 + 100·(1 − 0.05) = 145 and persists Completed with the winner fields —
but it records no Win transaction and does not remove the round from the
active partition (nor schedule the replacement round): the module never
imports `Transaction`, so `Transaction.create` raises a ReferenceError
that the method's catch swallows before those statements run. -/
theorem declareWinner_transaction_bug :
    (findUserRow (declareWinner stateC1 1 1 7).users 1).map UserRec.balance = some 145 ∧
    (declareWinner stateC1 1 1 7).transactions = [] ∧
    (lookupMem (declareWinner stateC1 1 1 7).activeGames 1).isSome = true ∧
    (findGameRow (declareWinner stateC1 1 1 7).games 1).map Game.status = some .completed ∧
    (findGameRow (declareWinner stateC1 1 1 7).games 1).map Game.winner_id = some (some 1) ∧
    (findGameRow (declareWinner stateC1 1 1 7).games 1).map Game.winning_card = some (some 7) ∧
    (declareWinner stateC1 1 1 7).scheduledNewGames = 0 := by
  norm_num [declareWinner, stateC1, gameC1, exSettings, mkUser, mkCard, lookupMem,
    findUserRow, findGameRow, updateGameRow, updateUserRow, cardKey, List.find?]

/-- Claim C4 (code bug): the three explicit validation failures of
`purchaseCard` (card unavailable, insufficient balance, round not in the
waiting state) are synchronous and leave the state unmutated — but holding
the per-player cap does not make `purchaseCard` fail validation (the cap
is checked only in `joinGame`), and a validation-passing purchase debits
the balance, assigns the card and raises the pot and then still fails with
the ReferenceError from the unbound name `Transaction`, which the method
rethrows: a failure case in which every mutation stands. -/
theorem purchaseCard_mutates_then_throws :
    (purchaseCard stateC4 1 1 999).1 = stateC4 ∧
    (purchaseCard stateC4 1 1 999).2 = .error (.errorMsg "Card not available") ∧
    (purchaseCard stateC4 1 3 3).1 = stateC4 ∧
    (purchaseCard stateC4 1 3 3).2 = .error (.errorMsg "Insufficient balance") ∧
    (purchaseCard stateC4 2 1 3).1 = stateC4 ∧
    (purchaseCard stateC4 2 1 3).2 = .error (.errorMsg "Game not available for card purchase") ∧
    userCardCount stateC4 1 2 = gameC4.settings.max_cards_per_player ∧
    (purchaseCard stateC4 1 2 9).2 = .error (.referenceError "Transaction") ∧
    (purchaseCard stateC4 1 1 3).2 = .error (.referenceError "Transaction") ∧
    (findUserRow (purchaseCard stateC4 1 1 3).1.users 1).map UserRec.balance = some 40 ∧
    ((purchaseCard stateC4 1 1 3).1.cards.find? (fun c => cardKey c == (1, 3))).map CardRec.user_id
      = some (some 1) ∧
    (findGameRow (purchaseCard stateC4 1 1 3).1.games 1).map Game.pot = some 10 ∧
    (lookupMem (purchaseCard stateC4 1 1 3).1.waitingGames 1).map Game.pot = some 10 ∧
    (purchaseCard stateC4 1 1 3).1.transactions = [] := by
  refine ⟨rfl, rfl, rfl, rfl, rfl, rfl, rfl, rfl, rfl, ?_, rfl, ?_, ?_, rfl⟩
  · have h : (findUserRow (purchaseCard stateC4 1 1 3).1.users 1).map UserRec.balance
        = some ((50 : ℚ) - 10) := rfl
    rw [h]; norm_num
  · have h : (findGameRow (purchaseCard stateC4 1 1 3).1.games 1).map Game.pot
        = some ((0 : ℚ) + 10) := rfl
    rw [h]; norm_num
  · have h : (lookupMem (purchaseCard stateC4 1 1 3).1.waitingGames 1).map Game.pot
        = some ((0 : ℚ) + 10) := rfl
    rw [h]; norm_num

/-- Claim C7 (code bug): with zero purchased cards the cancellation path
matches the claim (Cancelled, no transactions, no balance change, a
replacement round requested); but with purchasers, the refund loop credits
only the first purchaser and records no Refund transaction — the first
`Transaction.create` raises the ReferenceError of the unbound name
`Transaction`, aborting the method — and `startGame` compares the
purchased count against a hard-coded 1, not `min_players`, so a round
below its own `min_players` threshold is activated instead of cancelled
and refunded. -/
theorem cancelGame_refund_bug :
    ((cancelGame stateC7a 1).transactions = [] ∧
     (cancelGame stateC7a 1).users = stateC7a.users ∧
     (findGameRow (cancelGame stateC7a 1).games 1).map Game.status = some .cancelled ∧
     (cancelGame stateC7a 1).waitingGames = [] ∧
     (cancelGame stateC7a 1).scheduledNewGames = 1) ∧
    ((findUserRow (cancelGame stateC7b 1).users 1).map UserRec.balance = some 10 ∧
     (findUserRow (cancelGame stateC7b 1).users 2).map UserRec.balance = some 0 ∧
     (cancelGame stateC7b 1).transactions = [] ∧
     (lookupMem (cancelGame stateC7b 1).waitingGames 1).isSome = true ∧
     (cancelGame stateC7b 1).scheduledNewGames = 0 ∧
     (findGameRow (cancelGame stateC7b 1).games 1).map Game.status = some .cancelled) ∧
    (purchasedCount stateC7c 1 = 2 ∧ gameC7c.settings.min_players = 3 ∧
     (findGameRow (startGame stateC7c 1).games 1).map Game.status = some .active ∧
     (lookupMem (startGame stateC7c 1).activeGames 1).isSome = true ∧
     (startGame stateC7c 1).transactions = [] ∧
     (startGame stateC7c 1).users = stateC7c.users) := by
  refine ⟨⟨rfl, rfl, rfl, rfl, rfl⟩, ⟨?_, rfl, rfl, rfl, rfl, rfl⟩,
    ⟨rfl, rfl, rfl, rfl, rfl, rfl⟩⟩
  have h : (findUserRow (cancelGame stateC7b 1).users 1).map UserRec.balance
      = some ((0 : ℚ) + 10) := rfl
  rw [h]; norm_num

/-- Helper: `find?` returns the first satisfying element, so on a list
sorted by card number it returns a minimal satisfying element. -/
theorem find?_first_min {p : CardRec → Bool} :
    ∀ (l : List CardRec) (card : CardRec),
      l.find? p = some card →
      l.Pairwise (fun a b => a.card_number ≤ b.card_number) →
      ∀ c ∈ l, p c = true → card.card_number ≤ c.card_number := by
  intro l
  induction l with
  | nil => intro card h; cases h
  | cons a t ih =>
    intro card hfind hsort c hc hp
    rcases List.pairwise_cons.mp hsort with ⟨ha, ht⟩
    by_cases hpa : p a = true
    · rw [List.find?_cons_of_pos _ hpa] at hfind
      cases hfind
      rcases List.mem_cons.mp hc with h | h
      · rw [h]
      · exact ha c h
    · rw [List.find?_cons_of_neg _ (by simpa using hpa)] at hfind
      rcases List.mem_cons.mp hc with h | h
      · exact absurd (h ▸ hp) hpa
      · exact ih card hfind ht c h hp

/-- Claim C3 counterexample: two purchased cards (numbers 3 and 7) both
satisfy the win predicate on the same called set, yet when the rows come
back from the unordered query with card 7 first, the sweep declares card 7
(user 2) the winner, not the lower card number 3. -/
theorem checkForWinners_order_counterexample :
    [cardC3b, cardC3a].Perm (findPurchased stateC3 1) ∧
    checkCardForBingo cardC3a.numbers gameC3.called_numbers = true ∧
    checkCardForBingo cardC3b.numbers gameC3.called_numbers = true ∧
    cardC3a.card_number < cardC3b.card_number ∧
    (findGameRow (checkForWinners stateC3 1 [cardC3b, cardC3a]).games 1).map Game.winning_card
      = some (some 7) ∧
    (findGameRow (checkForWinners stateC3 1 [cardC3b, cardC3a]).games 1).map Game.winner_id
      = some (some 2) := by
  exact ⟨by decide, by decide, by decide, by decide, rfl, rfl⟩

/-- Claim C3 (corrected): the win sweep declares the first satisfying card
in the order the rows were retrieved — the query carries no order clause —
and only when the retrieved list is ascending by card number is the
declared card one of least card number among the satisfying cards. -/
theorem checkForWinners_first_in_retrieval_order :
    ∀ (s : EngineState) (gid : Nat) (game : Game) (retrieved : List CardRec) (card : CardRec),
      lookupMem s.activeGames gid = some game →
      retrieved.find? (fun c => checkCardForBingo c.numbers game.called_numbers) = some card →
      checkForWinners s gid retrieved
          = declareWinner s gid (card.user_id.getD 0) card.card_number ∧
      (retrieved.Pairwise (fun a b => a.card_number ≤ b.card_number) →
        ∀ c ∈ retrieved, checkCardForBingo c.numbers game.called_numbers = true →
          card.card_number ≤ c.card_number) := by
  intro s gid game retrieved card hlook hfind
  constructor
  · simp only [checkForWinners, hlook, hfind]
  · intro hsort
    exact find?_first_min retrieved card hfind hsort

/-- Witness for the corrected C3: on the ascending retrieval
[card 3, card 7] the sweep hands card 3 (the least satisfying card number)
to `declareWinner`. -/
theorem checkForWinners_first_in_retrieval_order_witness :
    checkForWinners stateC3 1 [cardC3a, cardC3b] = declareWinner stateC3 1 1 3 ∧
    ∀ c ∈ [cardC3a, cardC3b], checkCardForBingo c.numbers gameC3.called_numbers = true →
      cardC3a.card_number ≤ c.card_number := by
  have h := checkForWinners_first_in_retrieval_order stateC3 1 gameC3 [cardC3a, cardC3b]
    cardC3a rfl (by decide)
  exact ⟨h.1, h.2 (by decide)⟩

/-- Claim C9: ending a round by exhaustion touches no balance, records no
transaction, leaves every card row and every round row's pot, settings,
called numbers and winner fields unchanged, and only sets the ended
round's status to Completed with an end time (and removes it from the
active partition). -/
theorem endGame_frame :
    ∀ (s : EngineState) (gid : Nat),
      (endGame s gid).users = s.users ∧
      (endGame s gid).transactions = s.transactions ∧
      (endGame s gid).cards = s.cards ∧
      (endGame s gid).waitingGames = s.waitingGames ∧
      (∀ g' ∈ (endGame s gid).games, ∃ g ∈ s.games, g'.id = g.id ∧ g'.pot = g.pot ∧
        g'.settings = g.settings ∧ g'.called_numbers = g.called_numbers ∧
        g'.winner_id = g.winner_id ∧ (g.id ≠ gid → g' = g)) ∧
      (lookupMem s.activeGames gid ≠ none →
        ∀ g' ∈ (endGame s gid).games, g'.id = gid →
          g'.status = .completed ∧ g'.end_time = true) := by
  intro s gid
  unfold endGame
  cases hl : lookupMem s.activeGames gid with
  | none =>
      refine ⟨rfl, rfl, rfl, rfl, ?_, ?_⟩
      · intro g' hg'
        exact ⟨g', hg', rfl, rfl, rfl, rfl, rfl, fun _ => rfl⟩
      · intro hne
        exact absurd rfl hne
  | some game =>
      refine ⟨rfl, rfl, rfl, rfl, ?_, ?_⟩
      · intro g' hg'
        obtain ⟨g, hg, hge⟩ := List.mem_map.mp hg'
        refine ⟨g, hg, ?_⟩
        by_cases hid : (g.id == gid) = true
        · rw [if_pos hid] at hge
          subst hge
          exact ⟨rfl, rfl, rfl, rfl, rfl,
            fun hne => absurd (beq_iff_eq.mp hid) hne⟩
        · rw [if_neg hid] at hge
          subst hge
          exact ⟨rfl, rfl, rfl, rfl, rfl, fun _ => rfl⟩
      · intro _ g' hg' hgid
        obtain ⟨g, hg, hge⟩ := List.mem_map.mp hg'
        by_cases hid : (g.id == gid) = true
        · rw [if_pos hid] at hge
          subst hge
          exact ⟨rfl, rfl⟩
        · rw [if_neg hid] at hge
          subst hge
          exact absurd (beq_iff_eq.mpr hgid) hid

/-- Witness for C9 at a concrete active round. -/
theorem endGame_frame_witness :
    (endGame stateC8 1).users = stateC8.users ∧
    (endGame stateC8 1).transactions = stateC8.transactions ∧
    ∀ g' ∈ (endGame stateC8 1).games, g'.id = 1 →
      g'.status = .completed ∧ g'.end_time = true := by
  refine ⟨(endGame_frame stateC8 1).1, (endGame_frame stateC8 1).2.1,
    (endGame_frame stateC8 1).2.2.2.2.2 ?_⟩
  decide

/-- Helper: pointwise-equal predicates count equally. -/
theorem countP_ext : ∀ (l : List CardRec) (p q : CardRec → Bool),
    (∀ c ∈ l, p c = q c) → l.countP p = l.countP q := by
  intro l p q
  induction l with
  | nil => intro _; rfl
  | cons a t ih =>
    intro h
    rw [List.countP_cons, List.countP_cons, h a (List.mem_cons_self a t),
      ih (fun c hc => h c (List.mem_cons_of_mem a hc))]

/-- Helper: a successful partition lookup exhibits the map entry. -/
theorem lookupMem_mem (m : List (Nat × Game)) (gid : Nat) (game : Game)
    (h : lookupMem m gid = some game) : (gid, game) ∈ m := by
  unfold lookupMem at h
  cases hf : m.find? (fun p => p.1 == gid) with
  | none => rw [hf] at h; cases h
  | some p =>
    rw [hf] at h
    obtain ⟨p1, p2⟩ := p
    have hp := List.find?_some hf
    have hm := List.mem_of_find?_eq_some hf
    cases h
    have h1 : p1 = gid := by simpa using hp
    rw [h1] at hm
    exact hm

/-- Helper: replacing the entries of a present key makes the lookup return
the replacement. -/
theorem find?_map_replace (gid : Nat) (g : Game) :
    ∀ (m : List (Nat × Game)), (m.find? (fun p => p.1 == gid)).isSome = true →
      ((m.map (fun p => if p.1 == gid then (gid, g) else p)).find? (fun p => p.1 == gid))
        = some (gid, g) := by
  intro m
  induction m with
  | nil => intro h; simp at h
  | cons a t ih =>
    intro h
    by_cases ha : (a.1 == gid) = true
    · rw [List.map_cons, if_pos ha]
      exact List.find?_cons_of_pos _ (by simp)
    · rw [List.map_cons, if_neg ha]
      rw [List.find?_cons_of_neg _ (by simpa using ha)]
      apply ih
      rwa [List.find?_cons_of_neg _ (by simpa using ha)] at h

/-- Helper: `Map.set` on a present key is observed by the next `Map.get`. -/
theorem lookupMem_setMem_found (m : List (Nat × Game)) (gid : Nat) (g0 g : Game)
    (h : lookupMem m gid = some g0) :
    lookupMem (setMem m gid g) gid = some g := by
  have hs : (m.find? (fun p => p.1 == gid)).isSome = true := by
    unfold lookupMem at h
    cases hf : m.find? (fun p => p.1 == gid) with
    | none => rw [hf] at h; cases h
    | some p => rfl
  have hany : m.any (fun p => p.1 == gid) = true := by
    cases hf : m.find? (fun p => p.1 == gid) with
    | none => rw [hf] at hs; cases hs
    | some p =>
      have hp := List.find?_some hf
      exact List.any_eq_true.mpr ⟨p, List.mem_of_find?_eq_some hf, hp⟩
  unfold setMem lookupMem
  rw [if_pos hany, find?_map_replace gid g m hs]
  rfl

/-- Helper: `declareWinner` never touches the partitions or the
transactions table (the statements that would are skipped after the
ReferenceError). -/
theorem declareWinner_partitions (s : EngineState) (gid uid cn : Nat) :
    (declareWinner s gid uid cn).activeGames = s.activeGames ∧
    (declareWinner s gid uid cn).waitingGames = s.waitingGames ∧
    (declareWinner s gid uid cn).transactions = s.transactions := by
  unfold declareWinner
  split
  · exact ⟨rfl, rfl, rfl⟩
  · split
    · exact ⟨rfl, rfl, rfl⟩
    · exact ⟨rfl, rfl, rfl⟩

/-- Helper: `declareWinner` keeps every round row's id, called numbers,
pot and settings. -/
theorem declareWinner_row_frame (s : EngineState) (gid uid cn : Nat) :
    ∀ g' ∈ (declareWinner s gid uid cn).games, ∃ g ∈ s.games,
      g'.id = g.id ∧ g'.called_numbers = g.called_numbers ∧ g'.pot = g.pot ∧
      g'.settings = g.settings := by
  unfold declareWinner
  split
  · exact fun g' hg' => ⟨g', hg', rfl, rfl, rfl, rfl⟩
  · split
    · exact fun g' hg' => ⟨g', hg', rfl, rfl, rfl, rfl⟩
    · intro g' hg'
      obtain ⟨g, hg, hge⟩ := List.mem_map.mp hg'
      by_cases hid : (g.id == gid) = true
      · rw [if_pos hid] at hge; subst hge; exact ⟨g, hg, rfl, rfl, rfl, rfl⟩
      · rw [if_neg hid] at hge; subst hge; exact ⟨g, hg, rfl, rfl, rfl, rfl⟩

/-- Helper: `declareWinner` does not change any round's purchased-card
count (it only flips the winning card's `is_winner` flag). -/
theorem declareWinner_purchasedCount (s : EngineState) (gid' uid cn gid : Nat) :
    purchasedCount (declareWinner s gid' uid cn) gid = purchasedCount s gid := by
  unfold declareWinner
  split
  · rfl
  · split
    · rfl
    · exact (List.countP_map _ _ s.cards).trans
        (countP_ext s.cards _ _ (fun c _ => by
          by_cases hk : cardKey c = (gid', cn) <;> simp [hk]))

/-- Helper: `checkForWinners` keeps the partitions, every row's called
numbers, pot and settings, and every purchased-card count. -/
theorem checkForWinners_frame (s : EngineState) (gid : Nat) (retrieved : List CardRec) :
    (checkForWinners s gid retrieved).activeGames = s.activeGames ∧
    (∀ g' ∈ (checkForWinners s gid retrieved).games, ∃ g ∈ s.games,
      g'.id = g.id ∧ g'.called_numbers = g.called_numbers ∧ g'.pot = g.pot ∧
      g'.settings = g.settings) ∧
    (∀ gid2, purchasedCount (checkForWinners s gid retrieved) gid2 = purchasedCount s gid2) := by
  unfold checkForWinners
  split
  · exact ⟨rfl, fun g' hg' => ⟨g', hg', rfl, rfl, rfl, rfl⟩, fun _ => rfl⟩
  · split
    · exact ⟨rfl, fun g' hg' => ⟨g', hg', rfl, rfl, rfl, rfl⟩, fun _ => rfl⟩
    · exact ⟨(declareWinner_partitions s gid _ _).1, declareWinner_row_frame s gid _ _,
        fun gid2 => declareWinner_purchasedCount s gid _ _ gid2⟩

/-- Helper: `endGame` keeps the cards table and every row's pot, settings
and called numbers. -/
theorem endGame_row_frame (s : EngineState) (gid : Nat) :
    (endGame s gid).cards = s.cards ∧
    ∀ g' ∈ (endGame s gid).games, ∃ g ∈ s.games, g'.id = g.id ∧ g'.pot = g.pot ∧
      g'.settings = g.settings ∧ g'.called_numbers = g.called_numbers := by
  unfold endGame
  cases lookupMem s.activeGames gid with
  | none => exact ⟨rfl, fun g' h => ⟨g', h, rfl, rfl, rfl, rfl⟩⟩
  | some game =>
    refine ⟨rfl, fun g' hg' => ?_⟩
    obtain ⟨g, hg, hge⟩ := List.mem_map.mp hg'
    by_cases hid : (g.id == gid) = true
    · rw [if_pos hid] at hge; subst hge; exact ⟨g, hg, rfl, rfl, rfl, rfl⟩
    · rw [if_neg hid] at hge; subst hge; exact ⟨g, hg, rfl, rfl, rfl, rfl⟩

/-- Claim C8: on a caller tick, a round outside the active partition is
left untouched (no draw is ever appended once the round has left the
partition); an exceeded duration or an exhausted universe ends the round
without appending; otherwise exactly the next draw is appended (marked
called) to the round's called numbers, in the partition copy and in every
persisted row — and when the called list is the marked prefix of the
shuffled universe and the universe's keys are duplicate-free, the appended
draw was not previously called and the called list stays duplicate-free. -/
theorem callNumbersTick_spec :
    ∀ (s : EngineState) (gid : Nat) (allNumbers : List Draw) (idx elapsedMs : Nat)
      (retrieved : List CardRec),
      (lookupMem s.activeGames gid = none →
        callNumbersTick s gid allNumbers idx elapsedMs retrieved = (s, idx)) ∧
      (∀ game, lookupMem s.activeGames gid = some game →
        ((elapsedMs > game.settings.game_duration * 1000 ∨ idx ≥ allNumbers.length) →
          callNumbersTick s gid allNumbers idx elapsedMs retrieved = (endGame s gid, idx) ∧
          ∀ g' ∈ (endGame s gid).games, ∃ g ∈ s.games,
            g'.id = g.id ∧ g'.called_numbers = g.called_numbers) ∧
        (elapsedMs ≤ game.settings.game_duration * 1000 → idx < allNumbers.length →
          (callNumbersTick s gid allNumbers idx elapsedMs retrieved).2 = idx + 1 ∧
          (∀ g' ∈ (callNumbersTick s gid allNumbers idx elapsedMs retrieved).1.games,
            g'.id = gid → g'.called_numbers
              = game.called_numbers ++ [markCalled (allNumbers.getD idx defaultDraw)]) ∧
          (lookupMem (callNumbersTick s gid allNumbers idx elapsedMs retrieved).1.activeGames
              gid).map Game.called_numbers
            = some (game.called_numbers
                ++ [markCalled (allNumbers.getD idx defaultDraw)]) ∧
          (game.called_numbers
              = (allNumbers.take idx).map markCalled →
           (allNumbers.map drawKey).Nodup →
           drawKey (markCalled (allNumbers.getD idx defaultDraw))
               ∉ game.called_numbers.map drawKey ∧
           ((game.called_numbers
               ++ [markCalled (allNumbers.getD idx defaultDraw)]).map
                 drawKey).Nodup))) := by
  intro s gid allNumbers idx elapsedMs retrieved
  constructor
  · intro hl
    unfold callNumbersTick
    rw [hl]
  · intro game hl
    constructor
    · intro hstop
      constructor
      · unfold callNumbersTick
        rw [hl]
        simp only [if_pos hstop]
      · intro g' hg'
        obtain ⟨g, hg, h1, _, _, h2⟩ := (endGame_row_frame s gid).2 g' hg'
        exact ⟨g, hg, h1, h2⟩
    · intro he hi
      have hcond : ¬(elapsedMs > game.settings.game_duration * 1000 ∨ idx ≥ allNumbers.length) :=
        not_or.mpr ⟨not_lt.mpr he, not_le.mpr hi⟩
      have htick : callNumbersTick s gid allNumbers idx elapsedMs retrieved
          = (checkForWinners
              { s with
                activeGames := setMem s.activeGames gid
                  { game with
                    called_numbers := game.called_numbers
                      ++ [markCalled (allNumbers.getD idx defaultDraw)],
                    current_calls := sliceLast (game.called_numbers
                      ++ [markCalled (allNumbers.getD idx defaultDraw)]) 3 },
                games := updateGameRow s.games gid (fun g =>
                  { g with
                    called_numbers := game.called_numbers
                      ++ [markCalled (allNumbers.getD idx defaultDraw)],
                    current_calls := sliceLast (game.called_numbers
                      ++ [markCalled (allNumbers.getD idx defaultDraw)]) 3 }) }
              gid retrieved, idx + 1) := by
        unfold callNumbersTick
        rw [hl]
        simp only [if_neg hcond]
      refine ⟨by rw [htick], ?_, ?_, ?_⟩
      · intro g' hg'
        rw [htick] at hg'
        obtain ⟨g1, hg1, hid1, hcn1, _, _⟩ := (checkForWinners_frame _ gid retrieved).2.1 g' hg'
        intro hgid
        obtain ⟨g0, hg0, hge⟩ := List.mem_map.mp hg1
        by_cases hk : (g0.id == gid) = true
        · rw [if_pos hk] at hge
          rw [hcn1, ← hge]
        · rw [if_neg hk] at hge
          subst hge
          exact absurd (beq_iff_eq.mpr (hid1 ▸ hgid)) hk
      · rw [htick]
        rw [(checkForWinners_frame _ gid retrieved).1]
        rw [lookupMem_setMem_found s.activeGames gid game _ hl]
        rfl
      · intro hcn hnd
        have hk1 : game.called_numbers.map drawKey = (allNumbers.take idx).map drawKey := by
          rw [hcn, List.map_map]
          rfl
        have htake : allNumbers.take (idx + 1)
            = allNumbers.take idx ++ [allNumbers.getD idx defaultDraw] := by
          rw [List.take_succ, List.getD_eq_getElem?_getD, List.getElem?_eq_getElem hi]
          rfl
        have hnds : ((allNumbers.take (idx + 1)).map drawKey).Nodup :=
          hnd.sublist ((List.take_sublist (idx + 1) allNumbers).map drawKey)
        rw [htake, List.map_append] at hnds
        have hkey : drawKey (markCalled (allNumbers.getD idx defaultDraw))
            = drawKey (allNumbers.getD idx defaultDraw) := rfl
        constructor
        · rw [hkey, hk1]
          intro hmem
          rcases List.nodup_append.mp hnds with ⟨_, _, hdisj⟩
          exact hdisj hmem (by simp)
        · rw [List.map_append, hk1]
          have hsing : List.map drawKey [markCalled (allNumbers.getD idx defaultDraw)]
              = List.map drawKey [allNumbers.getD idx defaultDraw] := rfl
          rw [hsing]
          exact hnds

/-- Witness for C8: a tick on the concrete active round 1, a two-draw
universe and index 0 appends the marked draw B1 and advances the index. -/
theorem callNumbersTick_spec_witness :
    (callNumbersTick stateC8 1 drawsC8 0 0 []).2 = 1 ∧
    (lookupMem (callNumbersTick stateC8 1 drawsC8 0 0 []).1.activeGames 1).map Game.called_numbers
      = some [{ letter := "B", number := 1, called := true }] ∧
    drawKey (markCalled (drawsC8.getD 0 defaultDraw))
      ∉ gameC8.called_numbers.map drawKey := by
  have h := (callNumbersTick_spec stateC8 1 drawsC8 0 0 []).2 gameC8 rfl
  have h2 := h.2 (by decide) (by decide)
  exact ⟨h2.1, h2.2.2.1, (h2.2.2.2 rfl (by decide)).1⟩

/-- Helper: updating the rows of one card key belonging to another round
does not change a round's purchased count. -/
theorem countP_update_other (l : List CardRec) (k : Nat × Nat) (c1 : CardRec) (gid : Nat)
    (h1 : c1.game_id = k.1) (hne : gid ≠ k.1) :
    (l.map (fun c => if cardKey c == k then c1 else c)).countP
        (fun c => c.game_id == gid && c.user_id.isSome)
      = l.countP (fun c => c.game_id == gid && c.user_id.isSome) := by
  refine (List.countP_map _ _ l).trans (countP_ext l _ _ (fun c _ => ?_))
  simp only [Function.comp_apply]
  by_cases hk : cardKey c = k
  · rw [if_pos (by simpa using hk)]
    have hcg : c.game_id = k.1 := by rw [← hk]; rfl
    have e1 : (c1.game_id == gid) = false := by
      rw [h1]; exact beq_eq_false_iff_ne.mpr (Ne.symm hne)
    have e2 : (c.game_id == gid) = false := by
      rw [hcg]; exact beq_eq_false_iff_ne.mpr (Ne.symm hne)
    rw [e1, e2]
    simp
  · rw [if_neg (by simpa using hk)]

/-- Helper: with unique card keys, updating the unowned row of one key of a
round to an owned row raises that round's purchased count by exactly one. -/
theorem countP_update_same (gid cn : Nat) (c1 : CardRec)
    (h1 : c1.game_id = gid) (h2 : c1.user_id.isSome = true) :
    ∀ (l : List CardRec), (l.map cardKey).Nodup →
      ∀ c0 ∈ l, cardKey c0 = (gid, cn) → c0.user_id = none →
      (l.map (fun c => if cardKey c == (gid, cn) then c1 else c)).countP
          (fun c => c.game_id == gid && c.user_id.isSome)
        = l.countP (fun c => c.game_id == gid && c.user_id.isSome) + 1 := by
  intro l
  induction l with
  | nil => intro _ c0 h; cases h
  | cons a t ih =>
    intro hnd c0 hc0mem hkey hun
    rw [List.map_cons] at hnd
    rcases List.nodup_cons.mp hnd with ⟨hna, hndt⟩
    rcases List.mem_cons.mp hc0mem with hh | hh
    · subst hh
      rw [List.map_cons, if_pos (by simpa using hkey)]
      rw [List.countP_cons_of_pos _ _ (by simp [h1, h2]),
        List.countP_cons_of_neg _ _ (by simp [hun])]
      have hrest : (t.map (fun c => if cardKey c == (gid, cn) then c1 else c)).countP
          (fun c => c.game_id == gid && c.user_id.isSome)
          = t.countP (fun c => c.game_id == gid && c.user_id.isSome) := by
        refine (List.countP_map _ _ t).trans (countP_ext t _ _ (fun c hc => ?_))
        simp only [Function.comp_apply]
        have hck : cardKey c ≠ (gid, cn) := by
          intro hceq
          have hmm : cardKey c ∈ t.map cardKey := List.mem_map_of_mem cardKey hc
          rw [hceq, ← hkey] at hmm
          exact hna hmm
        rw [if_neg (by simpa using hck)]
      rw [hrest]
    · have hka : cardKey a ≠ (gid, cn) := by
        intro haeq
        have hmm : cardKey c0 ∈ t.map cardKey := List.mem_map_of_mem cardKey hh
        rw [hkey, ← haeq] at hmm
        exact hna hmm
      rw [List.map_cons, if_neg (by simpa using hka)]
      rw [List.countP_cons, List.countP_cons]
      rw [ih hndt c0 hh hkey hun]
      ring

/-- Helper: the rounds-and-counts transport of the pot invariant. -/
theorem potInvariant_mono (s s' : EngineState) (gid : Nat)
    (hg : ∀ g' ∈ s'.games, ∃ g ∈ s.games, g'.id = g.id ∧ g'.pot = g.pot ∧
      g'.settings = g.settings)
    (hc : purchasedCount s' gid = purchasedCount s gid)
    (hinv : potInvariant s gid) : potInvariant s' gid := by
  intro g' hg' hgid
  obtain ⟨g, hgmem, hid, hpot, hset⟩ := hg g' hg'
  rw [hpot, hset, hc]
  exact hinv g hgmem (hid ▸ hgid)

/-- Helper: `cancelGame` keeps the cards table and every row's pot and
settings. -/
theorem cancelGame_frame (s : EngineState) (gid : Nat) :
    (cancelGame s gid).cards = s.cards ∧
    ∀ g' ∈ (cancelGame s gid).games, ∃ g ∈ s.games, g'.id = g.id ∧ g'.pot = g.pot ∧
      g'.settings = g.settings := by
  unfold cancelGame
  split
  · exact ⟨rfl, fun g' h => ⟨g', h, rfl, rfl, rfl⟩⟩
  · split
    · refine ⟨rfl, fun g' hg' => ?_⟩
      obtain ⟨g, hg, hge⟩ := List.mem_map.mp hg'
      by_cases hid : (g.id == gid) = true
      · rw [if_pos hid] at hge; subst hge; exact ⟨g, hg, rfl, rfl, rfl⟩
      · rw [if_neg hid] at hge; subst hge; exact ⟨g, hg, rfl, rfl, rfl⟩
    · refine ⟨rfl, fun g' hg' => ?_⟩
      obtain ⟨g, hg, hge⟩ := List.mem_map.mp hg'
      by_cases hid : (g.id == gid) = true
      · rw [if_pos hid] at hge; subst hge; exact ⟨g, hg, rfl, rfl, rfl⟩
      · rw [if_neg hid] at hge; subst hge; exact ⟨g, hg, rfl, rfl, rfl⟩

/-- Helper: `startGame` keeps the cards table and every row's pot and
settings. -/
theorem startGame_frame (s : EngineState) (gid : Nat) :
    (startGame s gid).cards = s.cards ∧
    ∀ g' ∈ (startGame s gid).games, ∃ g ∈ s.games, g'.id = g.id ∧ g'.pot = g.pot ∧
      g'.settings = g.settings := by
  unfold startGame
  split
  · exact ⟨rfl, fun g' h => ⟨g', h, rfl, rfl, rfl⟩⟩
  · split
    · exact cancelGame_frame s gid
    · refine ⟨rfl, fun g' hg' => ?_⟩
      obtain ⟨g, hg, hge⟩ := List.mem_map.mp hg'
      by_cases hid : (g.id == gid) = true
      · rw [if_pos hid] at hge; subst hge; exact ⟨g, hg, rfl, rfl, rfl⟩
      · rw [if_neg hid] at hge; subst hge; exact ⟨g, hg, rfl, rfl, rfl⟩

/-- Helper: a purchase attempt either leaves the state unchanged (one of
the validation throws, before any mutation) or reaches the mutating path:
balance debited, the card row assigned, the pot raised in the row and in
the partition copy, and the rethrown ReferenceError of the unbound name
`Transaction`. -/
theorem purchaseCard_cases (s : EngineState) (gid' uid cn : Nat) :
    ((purchaseCard s gid' uid cn).1 = s ∧
      (purchaseCard s gid' uid cn).2 ≠ .error (.referenceError "Transaction")) ∨
    ∃ game card, lookupMem s.waitingGames gid' = some game ∧
      s.cards.find? (fun c =>
        c.game_id == gid' && c.card_number == cn && c.user_id == none) = some card ∧
      (purchaseCard s gid' uid cn).2 = .error (.referenceError "Transaction") ∧
      (purchaseCard s gid' uid cn).1 = { s with
        users := updateUserRow s.users uid (fun u =>
          { u with balance := u.balance - game.settings.bet_amount }),
        cards := s.cards.map (fun c => if cardKey c == (gid', cn) then
          { card with user_id := some uid, purchased_at := true } else c),
        games := updateGameRow s.games gid' (fun g =>
          { g with pot := game.pot + game.settings.bet_amount }),
        waitingGames := setMem s.waitingGames gid'
          { game with pot := game.pot + game.settings.bet_amount } } := by
  unfold purchaseCard
  split
  · exact Or.inl ⟨rfl, by simp⟩
  · rename_i game heq
    split
    · exact Or.inl ⟨rfl, by simp⟩
    · split
      · exact Or.inl ⟨rfl, by simp⟩
      · rename_i card hfind
        split
        · exact Or.inl ⟨rfl, by simp⟩
        · split
          · exact Or.inl ⟨rfl, by simp⟩
          · exact Or.inr ⟨game, card, heq, hfind, rfl, rfl⟩

/-- Helper: `declareWinner` preserves every round's pot invariant. -/
theorem declareWinner_potInvariant (s : EngineState) (gid gid' uid cn : Nat)
    (hinv : potInvariant s gid) : potInvariant (declareWinner s gid' uid cn) gid := by
  refine potInvariant_mono s _ gid ?_ ?_ hinv
  · intro g' hg'
    obtain ⟨g, hg, h1, _, h3, h4⟩ := declareWinner_row_frame s gid' uid cn g' hg'
    exact ⟨g, hg, h1, h3, h4⟩
  · exact declareWinner_purchasedCount s gid' uid cn gid

/-- Helper: `endGame` preserves every round's pot invariant. -/
theorem endGame_potInvariant (s : EngineState) (gid gid' : Nat)
    (hinv : potInvariant s gid) : potInvariant (endGame s gid') gid := by
  refine potInvariant_mono s _ gid ?_ ?_ hinv
  · intro g' hg'
    obtain ⟨g, hg, h1, h2, h3, _⟩ := (endGame_row_frame s gid').2 g' hg'
    exact ⟨g, hg, h1, h2, h3⟩
  · unfold purchasedCount
    rw [(endGame_row_frame s gid').1]

/-- Helper: `cancelGame` preserves every round's pot invariant (refunds
touch only balances). -/
theorem cancelGame_potInvariant (s : EngineState) (gid gid' : Nat)
    (hinv : potInvariant s gid) : potInvariant (cancelGame s gid') gid := by
  refine potInvariant_mono s _ gid ?_ ?_ hinv
  · exact (cancelGame_frame s gid').2
  · unfold purchasedCount
    rw [(cancelGame_frame s gid').1]

/-- Helper: `startGame` preserves every round's pot invariant. -/
theorem startGame_potInvariant (s : EngineState) (gid gid' : Nat)
    (hinv : potInvariant s gid) : potInvariant (startGame s gid') gid := by
  refine potInvariant_mono s _ gid ?_ ?_ hinv
  · exact (startGame_frame s gid').2
  · unfold purchasedCount
    rw [(startGame_frame s gid').1]

/-- Helper: the win sweep preserves every round's pot invariant. -/
theorem checkForWinners_potInvariant (s : EngineState) (gid gid' : Nat)
    (retrieved : List CardRec) (hinv : potInvariant s gid) :
    potInvariant (checkForWinners s gid' retrieved) gid := by
  refine potInvariant_mono s _ gid ?_ ?_ hinv
  · intro g' hg'
    obtain ⟨g, hg, h1, _, h3, h4⟩ := (checkForWinners_frame s gid' retrieved).2.1 g' hg'
    exact ⟨g, hg, h1, h3, h4⟩
  · exact (checkForWinners_frame s gid' retrieved).2.2 gid

/-- Helper: a caller tick preserves every round's pot invariant. -/
theorem callNumbersTick_potInvariant (s : EngineState) (gid gid' : Nat) (allN : List Draw)
    (idx el : Nat) (retrieved : List CardRec) (hinv : potInvariant s gid) :
    potInvariant (callNumbersTick s gid' allN idx el retrieved).1 gid := by
  unfold callNumbersTick
  split
  · exact hinv
  · split
    · exact endGame_potInvariant s gid gid' hinv
    · refine potInvariant_mono s _ gid ?_ ?_ hinv
      · intro g' hg'
        obtain ⟨g1, hg1, hid1, _, hpot1, hset1⟩ :=
          (checkForWinners_frame _ gid' retrieved).2.1 g' hg'
        obtain ⟨g0, hg0, hge⟩ := List.mem_map.mp hg1
        by_cases hk : (g0.id == gid') = true
        · rw [if_pos hk] at hge; subst hge; exact ⟨g0, hg0, hid1, hpot1, hset1⟩
        · rw [if_neg hk] at hge; subst hge; exact ⟨g0, hg0, hid1, hpot1, hset1⟩
      · exact ((checkForWinners_frame _ gid' retrieved).2.2 gid).trans rfl

/-- Helper: a freshly created round satisfies the pot invariant: its row
starts with pot 0 and it has no purchased card. -/
theorem createNewGame_potInvariant (s : EngineState) (gid : Nat) (bet fee : ℚ)
    (dur mx : Nat) (hg : ∀ g ∈ s.games, g.id ≠ gid) (hc : ∀ c ∈ s.cards, c.game_id ≠ gid) :
    potInvariant (createNewGame s gid bet fee dur mx) gid ∧
    purchasedCount (createNewGame s gid bet fee dur mx) gid = 0 := by
  have hcnt : purchasedCount (createNewGame s gid bet fee dur mx) gid = 0 := by
    show (s.cards ++ generateGameCards gid).countP
        (fun c => c.game_id == gid && c.user_id.isSome) = 0
    rw [List.countP_append]
    have e1 : s.cards.countP (fun c => c.game_id == gid && c.user_id.isSome) = 0 :=
      List.countP_eq_zero.mpr (fun c hcm => by simp [hc c hcm])
    have e2 : (generateGameCards gid).countP
        (fun c => c.game_id == gid && c.user_id.isSome) = 0 :=
      List.countP_eq_zero.mpr (fun c hcm => by
        obtain ⟨k, _, hk⟩ := List.mem_map.mp hcm
        subst hk
        simp)
    rw [e1, e2]
  refine ⟨?_, hcnt⟩
  intro g' hg' hgid
  rw [hcnt]
  rcases List.mem_append.mp hg' with hmem | hmem
  · exact absurd hgid (hg g' hmem)
  · have hg'' := List.mem_singleton.mp hmem
    subst hg''
    simp

/-- Helper: a purchase attempt preserves the pot invariant of every round,
given consistent in-memory copies and unique card keys. -/
theorem purchaseCard_potInvariant (s : EngineState) (gid' uid cn gid : Nat)
    (hagree : memDbPotAgree s) (hnd : cardKeysNodup s) (hinv : potInvariant s gid) :
    potInvariant (purchaseCard s gid' uid cn).1 gid := by
  rcases purchaseCard_cases s gid' uid cn with ⟨hsame, _⟩ | ⟨game, card, heq, hfind, _, hstate⟩
  · rw [hsame]; exact hinv
  · have hpred := List.find?_some hfind
    simp only [Bool.and_eq_true, beq_iff_eq] at hpred
    have hkg : card.game_id = gid' := hpred.1.1
    have hku : card.user_id = none := hpred.2
    have hckey : cardKey card = (gid', cn) := by
      unfold cardKey; rw [hkg, hpred.1.2]
    have hmemc := List.mem_of_find?_eq_some hfind
    have hcnt : purchasedCount (purchaseCard s gid' uid cn).1 gid'
        = purchasedCount s gid' + 1 := by
      rw [hstate]
      show (s.cards.map (fun c => if cardKey c == (gid', cn) then
          { card with user_id := some uid, purchased_at := true } else c)).countP
          (fun c => c.game_id == gid' && c.user_id.isSome)
        = s.cards.countP (fun c => c.game_id == gid' && c.user_id.isSome) + 1
      exact countP_update_same gid' cn
        { card with user_id := some uid, purchased_at := true } hkg rfl
        s.cards hnd card hmemc hckey hku
    have hcnt2 : ∀ gidq, gidq ≠ gid' →
        purchasedCount (purchaseCard s gid' uid cn).1 gidq = purchasedCount s gidq := by
      intro gidq hne
      rw [hstate]
      show (s.cards.map (fun c => if cardKey c == (gid', cn) then
          { card with user_id := some uid, purchased_at := true } else c)).countP
          (fun c => c.game_id == gidq && c.user_id.isSome)
        = s.cards.countP (fun c => c.game_id == gidq && c.user_id.isSome)
      exact countP_update_other s.cards (gid', cn) _ gidq hkg hne
    intro g' hg' hgid
    rw [hstate] at hg'
    obtain ⟨g, hg, hge⟩ := List.mem_map.mp hg'
    by_cases hid : (g.id == gid') = true
    · rw [if_pos hid] at hge
      subst hge
      have hgg' : g.id = gid' := beq_iff_eq.mp hid
      have heqq : gid = gid' := by
        have hgid2 : g.id = gid := hgid
        rw [← hgid2]; exact hgg'
      rw [heqq, hcnt]
      rw [heqq] at hinv
      have hpair := lookupMem_mem s.waitingGames gid' game heq
      have hag := hagree (gid', game) hpair g hg hgg'
      have hbase := hinv g hg hgg'
      show game.pot + game.settings.bet_amount
          = g.settings.bet_amount * ((purchasedCount s gid' + 1 : Nat) : ℚ)
      rw [← hag.1, ← hag.2, hbase]
      push_cast
      ring
    · rw [if_neg hid] at hge
      subst hge
      have hid' : ¬(g.id = gid') := by simpa using hid
      have hne : gid ≠ gid' := fun h => hid' (hgid.symm ▸ h)
      rw [hcnt2 gid hne]
      exact hinv g hg hgid

/-- Helper: on the mutating purchase path the purchased round's rows gain
exactly the round's bet amount of pot. -/
theorem purchaseCard_pot_delta (s : EngineState) (gid' uid cn : Nat)
    (hagree : memDbPotAgree s)
    (hthrow : (purchaseCard s gid' uid cn).2 = .error (.referenceError "Transaction")) :
    ∀ g' ∈ (purchaseCard s gid' uid cn).1.games, g'.id = gid' →
      ∃ g ∈ s.games, g'.id = g.id ∧ g'.pot = g.pot + g.settings.bet_amount := by
  rcases purchaseCard_cases s gid' uid cn with ⟨_, hne2⟩ | ⟨game, card, heq, hfind, _, hstate⟩
  · exact absurd hthrow hne2
  · intro g' hg' hgid
    rw [hstate] at hg'
    obtain ⟨g, hg, hge⟩ := List.mem_map.mp hg'
    by_cases hid : (g.id == gid') = true
    · rw [if_pos hid] at hge
      subst hge
      have hag := hagree (gid', game) (lookupMem_mem s.waitingGames gid' game heq)
        g hg (beq_iff_eq.mp hid)
      refine ⟨g, hg, rfl, ?_⟩
      show game.pot + game.settings.bet_amount = g.pot + g.settings.bet_amount
      rw [hag.1, hag.2]
    · rw [if_neg hid] at hge
      subst hge
      exact absurd (beq_iff_eq.mpr hgid) hid

/-- Claim C6: before settlement, every round row keeps
pot = bet_amount × purchased-card count: a freshly created round starts
with pot 0 and zero purchases and satisfies the invariant; a purchase
attempt preserves it (and, when it reaches its mutating path — signalled
by the rethrown ReferenceError — it adds exactly one purchased card and
exactly one bet to the round's pot rows); and no other engine operation —
declaring a winner, ending, cancelling, starting a round, the win sweep,
or a caller tick — changes any round's pot or purchased count. -/
theorem pot_invariant_spec :
    (∀ (s : EngineState) (gid : Nat) (bet fee : ℚ) (dur mx : Nat),
      (∀ g ∈ s.games, g.id ≠ gid) → (∀ c ∈ s.cards, c.game_id ≠ gid) →
      potInvariant (createNewGame s gid bet fee dur mx) gid ∧
      purchasedCount (createNewGame s gid bet fee dur mx) gid = 0) ∧
    (∀ (s : EngineState) (gid' uid cn gid : Nat),
      memDbPotAgree s → cardKeysNodup s → potInvariant s gid →
      potInvariant (purchaseCard s gid' uid cn).1 gid) ∧
    (∀ (s : EngineState) (gid' uid cn : Nat),
      memDbPotAgree s →
      (purchaseCard s gid' uid cn).2 = .error (.referenceError "Transaction") →
      ∀ g' ∈ (purchaseCard s gid' uid cn).1.games, g'.id = gid' →
        ∃ g ∈ s.games, g'.id = g.id ∧ g'.pot = g.pot + g.settings.bet_amount) ∧
    (∀ (s : EngineState) (gid gid' uid cn : Nat), potInvariant s gid →
      potInvariant (declareWinner s gid' uid cn) gid) ∧
    (∀ (s : EngineState) (gid gid' : Nat), potInvariant s gid →
      potInvariant (endGame s gid') gid) ∧
    (∀ (s : EngineState) (gid gid' : Nat), potInvariant s gid →
      potInvariant (cancelGame s gid') gid) ∧
    (∀ (s : EngineState) (gid gid' : Nat), potInvariant s gid →
      potInvariant (startGame s gid') gid) ∧
    (∀ (s : EngineState) (gid gid' : Nat) (retrieved : List CardRec), potInvariant s gid →
      potInvariant (checkForWinners s gid' retrieved) gid) ∧
    (∀ (s : EngineState) (gid gid' : Nat) (allN : List Draw) (idx el : Nat)
      (retrieved : List CardRec), potInvariant s gid →
      potInvariant (callNumbersTick s gid' allN idx el retrieved).1 gid) :=
  ⟨fun s gid bet fee dur mx hg hc => createNewGame_potInvariant s gid bet fee dur mx hg hc,
   fun s gid' uid cn gid ha hn hi => purchaseCard_potInvariant s gid' uid cn gid ha hn hi,
   fun s gid' uid cn ha ht => purchaseCard_pot_delta s gid' uid cn ha ht,
   fun s gid gid' uid cn hi => declareWinner_potInvariant s gid gid' uid cn hi,
   fun s gid gid' hi => endGame_potInvariant s gid gid' hi,
   fun s gid gid' hi => cancelGame_potInvariant s gid gid' hi,
   fun s gid gid' hi => startGame_potInvariant s gid gid' hi,
   fun s gid gid' retrieved hi => checkForWinners_potInvariant s gid gid' retrieved hi,
   fun s gid gid' allN idx el retrieved hi =>
     callNumbersTick_potInvariant s gid gid' allN idx el retrieved hi⟩

/-- Witness for C6: the pot invariant of round 1 survives a concrete
purchase attempt on the concrete waiting state. -/
theorem pot_invariant_spec_witness :
    potInvariant (purchaseCard stateC6 1 1 3).1 1 :=
  pot_invariant_spec.2.1 stateC6 1 1 3 1
    (by
      intro p hp g hg hid
      simp only [stateC6, List.mem_singleton] at hp hg
      subst hp; subst hg
      exact ⟨rfl, rfl⟩)
    (by unfold cardKeysNodup; decide)
    (by
      intro g hg hid
      simp only [stateC6, List.mem_singleton] at hg
      subst hg
      show (0 : ℚ) = (10 : ℚ) * ((purchasedCount stateC6 1 : Nat) : ℚ)
      have hc : purchasedCount stateC6 1 = 0 := by decide
      rw [hc]
      simp)
